import Mathlib

/-!
Verification of the terraform-provider-awssso repository.

The repository files in scope are config.go (package aws: Config, AWSClient,
Config.Client, PartitionHostname, RegionalHostname, GetSupportedEC2Platforms)
and tags.go (tagsSchemaComputed).  Go errors are modelled by their message
string; the external helpers the code calls (hashicorp/aws-sdk-go-base, the
AWS SDK endpoints database, the debug-logging query) are modelled as an
environment of functions so the code can be analysed for every behaviour of
those libraries.
-/

namespace AwsSSO

/-- Go errors carry a message string; an error value is modelled by the string
its Error method returns.  Wrapping with fmt.Errorf prepends new text. -/
abbrev Err := String

/-- Placeholder for keyvaluetags.DefaultConfig (the internal keyvaluetags
package is not among the source files); Config.Client only carries it through
unchanged, so it is modelled as an abstract tag map. -/
structure DefaultConfig where
  Tags : List (String × String)
deriving DecidableEq

/-- Placeholder for keyvaluetags.IgnoreConfig, likewise carried through
unchanged by Config.Client. -/
structure IgnoreConfig where
  Keys : List String
deriving DecidableEq

/-- An AWS SDK session as handed back by the base library; the repository never
inspects it, so it is an abstract handle. -/
structure Session where
  handle : Nat
deriving DecidableEq

/-- Result of sess.Copy(&aws.Config\x7bEndpoint: ...\x7d): a session derived
from a base session with an endpoint override. -/
structure CopiedSession where
  base : Session
  Endpoint : String
deriving DecidableEq

/-- Models sess.Copy with an endpoint-only aws.Config. -/
def Session.copy (sess : Session) (endpoint : String) : CopiedSession :=
  { base := sess, Endpoint := endpoint }

/-- An iam.IAM service client as produced by iam.New. -/
structure IAM where
  sess : CopiedSession
deriving DecidableEq

/-- Models iam.New on a copied session. -/
def iamNew (sess : CopiedSession) : IAM :=
  { sess := sess }

/-- A partition from the AWS SDK endpoints database; the code only reads its
DNS suffix. -/
structure Partition where
  dnsSuffix : String
deriving DecidableEq

/-- One entry of awsbase.Config.UserAgentProducts. -/
structure UserAgentProduct where
  Name : String
  Version : String
  Extra : List String
deriving DecidableEq

/-- The awsbase.Config structure of hashicorp/aws-sdk-go-base, with exactly the
fields the Config.Client literal sets. -/
structure AwsbaseConfig where
  AccessKey : String
  AssumeRoleARN : String
  AssumeRoleDurationSeconds : Int
  AssumeRoleExternalID : String
  AssumeRolePolicy : String
  AssumeRolePolicyARNs : List String
  AssumeRoleSessionName : String
  AssumeRoleTags : List (String × String)
  AssumeRoleTransitiveTagKeys : List String
  CallerDocumentationURL : String
  CallerName : String
  CredsFilename : String
  DebugLogging : Bool
  IamEndpoint : String
  Insecure : Bool
  MaxRetries : Int
  Profile : String
  Region : String
  SecretKey : String
  SkipCredsValidation : Bool
  SkipMetadataApiCheck : Bool
  SkipRequestingAccountId : Bool
  StsEndpoint : String
  Token : String
  UserAgentProducts : List UserAgentProduct

/-- The provider Config structure from config.go.  Go maps are modelled as
total functions returning the zero value "" for absent keys, matching Go map
indexing; AssumeRoleTags is carried as an association list. -/
structure Config where
  AccessKey : String
  SecretKey : String
  CredsFilename : String
  Profile : String
  Token : String
  Region : String
  MaxRetries : Int
  AssumeRoleARN : String
  AssumeRoleDurationSeconds : Int
  AssumeRoleExternalID : String
  AssumeRolePolicy : String
  AssumeRolePolicyARNs : List String
  AssumeRoleSessionName : String
  AssumeRoleTags : List (String × String)
  AssumeRoleTransitiveTagKeys : List String
  AllowedAccountIds : List String
  ForbiddenAccountIds : List String
  DefaultTagsConfig : Option DefaultConfig
  Endpoints : String → String
  IgnoreTagsConfig : Option IgnoreConfig
  Insecure : Bool
  SkipCredsValidation : Bool
  SkipGetEC2Platforms : Bool
  SkipRegionValidation : Bool
  SkipRequestingAccountId : Bool
  SkipMetadataApiCheck : Bool
  S3ForcePathStyle : Bool
  terraformVersion : String

/-- The AWSClient structure from config.go. -/
structure AWSClient where
  accountid : String
  DefaultTagsConfig : Option DefaultConfig
  dnsSuffix : String
  iamconn : IAM
  IgnoreTagsConfig : Option IgnoreConfig
  partition : String
  region : String
  terraformVersion : String
deriving DecidableEq

/-- PartitionHostname returns a hostname with the provider domain suffix for
the partition, e.g. PREFIX.amazonaws.com. -/
def AWSClient.PartitionHostname (client : AWSClient) (p : String) : String :=
  p ++ "." ++ client.dnsSuffix

/-- RegionalHostname returns a hostname with the provider domain suffix for the
region and partition, e.g. PREFIX.us-west-2.amazonaws.com. -/
def AWSClient.RegionalHostname (client : AWSClient) (p : String) : String :=
  p ++ "." ++ client.region ++ "." ++ client.dnsSuffix

/-- The external calls Config.Client makes, gathered into an environment:
awsbase.ValidateRegion, awsbase.GetSessionWithAccountIDAndPartition,
awsbase.ValidateAccountID, endpoints.PartitionForRegion over
endpoints.DefaultPartitions, and logging.IsDebugOrHigher. -/
structure AwsBase where
  ValidateRegion : String → Option Err
  GetSessionWithAccountIDAndPartition :
      AwsbaseConfig → Except Err (Session × String × String)
  ValidateAccountID : String → List String → List String → Option Err
  PartitionForRegion : String → Option Partition
  IsDebugOrHigher : Bool

/-- The awsbase.Config literal that Config.Client builds (config.go lines
87-118), field for field. -/
def Config.awsbaseConfig (c : Config) (debugLogging : Bool) : AwsbaseConfig :=
  { AccessKey := c.AccessKey
    AssumeRoleARN := c.AssumeRoleARN
    AssumeRoleDurationSeconds := c.AssumeRoleDurationSeconds
    AssumeRoleExternalID := c.AssumeRoleExternalID
    AssumeRolePolicy := c.AssumeRolePolicy
    AssumeRolePolicyARNs := c.AssumeRolePolicyARNs
    AssumeRoleSessionName := c.AssumeRoleSessionName
    AssumeRoleTags := c.AssumeRoleTags
    AssumeRoleTransitiveTagKeys := c.AssumeRoleTransitiveTagKeys
    CallerDocumentationURL := "https://registry.terraform.io/providers/hashicorp/aws"
    CallerName := "Terraform AWS Provider"
    CredsFilename := c.CredsFilename
    DebugLogging := debugLogging
    IamEndpoint := c.Endpoints "iam"
    Insecure := c.Insecure
    MaxRetries := c.MaxRetries
    Profile := c.Profile
    Region := c.Region
    SecretKey := c.SecretKey
    SkipCredsValidation := c.SkipCredsValidation
    SkipMetadataApiCheck := c.SkipMetadataApiCheck
    SkipRequestingAccountId := c.SkipRequestingAccountId
    StsEndpoint := c.Endpoints "sts"
    Token := c.Token
    UserAgentProducts :=
      [{ Name := "APN", Version := "1.0", Extra := [] },
       { Name := "HashiCorp", Version := "1.0", Extra := [] },
       { Name := "Terraform", Version := c.terraformVersion,
         Extra := ["+https://www.terraform.io"] }] }

/-- Config.Client from the session call onward (config.go lines 120-185): the
part of Client that runs once region validation has been passed or skipped.
The trailing globalaccelerator, route53, shield and s3 aws.Config values that
the Go code builds are local values never stored in the returned client, so
they do not appear in the result. -/
def Config.clientAfterRegionValidation (c : Config) (base : AwsBase) :
    Option AWSClient × Option Err :=
  match base.GetSessionWithAccountIDAndPartition
      (c.awsbaseConfig base.IsDebugOrHigher) with
  | Except.error err =>
      (none, some ("error configuring Terraform AWS Provider: " ++ err))
  | Except.ok (sess, accountID, partition) =>
      match base.ValidateAccountID accountID c.AllowedAccountIds
          c.ForbiddenAccountIds with
      | some err => (none, some err)
      | none =>
          let dnsSuffix :=
            match base.PartitionForRegion c.Region with
            | some p => p.dnsSuffix
            | none => "amazonaws.com"
          let client : AWSClient :=
            { accountid := accountID
              DefaultTagsConfig := c.DefaultTagsConfig
              dnsSuffix := dnsSuffix
              iamconn := iamNew (sess.copy (c.Endpoints "iam"))
              IgnoreTagsConfig := c.IgnoreTagsConfig
              partition := partition
              region := c.Region
              terraformVersion := c.terraformVersion }
          (some client, none)

/-- Client configures and returns a fully initialized AWSClient (config.go
lines 78-185).  The Go result pair of an untyped client and an error is
modelled as Option AWSClient × Option Err, nil rendered as none. -/
def Config.Client (c : Config) (base : AwsBase) : Option AWSClient × Option Err :=
  if c.SkipRegionValidation then
    c.clientAfterRegionValidation base
  else
    match base.ValidateRegion c.Region with
    | some err => (none, some err)
    | none => c.clientAfterRegionValidation base

/-- One ec2.AccountAttribute: a name and a list of values, the Go pointer
fields dereferenced to plain strings. -/
structure AccountAttribute where
  AttributeName : String
  AttributeValues : List String
deriving DecidableEq

/-- The ec2.DescribeAccountAttributesInput the code builds. -/
structure DescribeAccountAttributesInput where
  AttributeNames : List String
deriving DecidableEq

/-- An ec2.EC2 connection, modelled by the one API call the code makes on it. -/
structure EC2 where
  DescribeAccountAttributes :
      DescribeAccountAttributesInput → Except Err (List AccountAttribute)

/-- GetSupportedEC2Platforms from config.go lines 188-213.  The Go loop scans
the returned attributes, collects the values of the first attribute named
"supported-platforms" and breaks, which is List.find? on the attribute name. -/
def GetSupportedEC2Platforms (conn : EC2) : Except Err (List String) :=
  let attrName := "supported-platforms"
  let input : DescribeAccountAttributesInput := { AttributeNames := [attrName] }
  match conn.DescribeAccountAttributes input with
  | Except.error err => Except.error err
  | Except.ok attributes =>
      let platforms :=
        match attributes.find? (fun attr => attr.AttributeName == attrName) with
        | some attr => attr.AttributeValues
        | none => []
      if platforms.length == 0 then
        Except.error "no EC2 platforms detected"
      else
        Except.ok platforms

/-- The schema.ValueType enumeration of the terraform-plugin-sdk. -/
inductive ValueType where
  | TypeInvalid
  | TypeBool
  | TypeInt
  | TypeFloat
  | TypeString
  | TypeList
  | TypeMap
  | TypeSet
deriving DecidableEq

/-- A schema.Schema of the terraform-plugin-sdk, restricted to the fields the
repository sets; a Go struct literal leaves the others at their zero values.
The Go field Type is rendered vtype because Type is a Lean keyword; Elem is
the optional nested schema. -/
inductive Schema where
  | mk (vtype : ValueType) (Optional : Bool) (Computed : Bool)
       (Elem : Option Schema)

/-- Projection for the Go field Type. -/
def Schema.vtype : Schema → ValueType
  | .mk t _ _ _ => t

/-- Projection for the Go field Optional. -/
def Schema.Optional : Schema → Bool
  | .mk _ o _ _ => o

/-- Projection for the Go field Computed. -/
def Schema.Computed : Schema → Bool
  | .mk _ _ co _ => co

/-- Projection for the Go field Elem. -/
def Schema.Elem : Schema → Option Schema
  | .mk _ _ _ e => e

/-- tagsSchemaComputed from tags.go: a map-of-strings schema that is both
Optional and Computed; the inner element schema sets only Type, leaving
Optional and Computed at their zero value false. -/
def tagsSchemaComputed : Schema :=
  Schema.mk ValueType.TypeMap true true
    (some (Schema.mk ValueType.TypeString false false none))

/-! Concrete fixtures used by witnesses and counterexamples. -/

/-- A fully concrete provider configuration. -/
def cfgBase : Config :=
  { AccessKey := "AKIAEXAMPLE"
    SecretKey := "secret"
    CredsFilename := ""
    Profile := ""
    Token := ""
    Region := "us-west-2"
    MaxRetries := 25
    AssumeRoleARN := ""
    AssumeRoleDurationSeconds := 0
    AssumeRoleExternalID := ""
    AssumeRolePolicy := ""
    AssumeRolePolicyARNs := []
    AssumeRoleSessionName := ""
    AssumeRoleTags := []
    AssumeRoleTransitiveTagKeys := []
    AllowedAccountIds := []
    ForbiddenAccountIds := []
    DefaultTagsConfig := none
    Endpoints := fun _ => ""
    IgnoreTagsConfig := none
    Insecure := false
    SkipCredsValidation := false
    SkipGetEC2Platforms := false
    SkipRegionValidation := false
    SkipRequestingAccountId := false
    SkipMetadataApiCheck := false
    S3ForcePathStyle := false
    terraformVersion := "1.0.0" }

/-- An environment in which every base-library call succeeds. -/
def baseOk : AwsBase :=
  { ValidateRegion := fun _ => none
    GetSessionWithAccountIDAndPartition :=
      fun _ => Except.ok ({ handle := 0 }, "123456789012", "aws")
    ValidateAccountID := fun _ _ _ => none
    PartitionForRegion := fun _ => some { dnsSuffix := "amazonaws.com" }
    IsDebugOrHigher := false }

/-- The client cfgBase.Client returns under baseOk. -/
def clientOk : AWSClient :=
  { accountid := "123456789012"
    DefaultTagsConfig := none
    dnsSuffix := "amazonaws.com"
    iamconn := iamNew (Session.copy { handle := 0 } "")
    IgnoreTagsConfig := none
    partition := "aws"
    region := "us-west-2"
    terraformVersion := "1.0.0" }

/-- An environment in which session creation fails. -/
def baseSessErr : AwsBase :=
  { ValidateRegion := fun _ => none
    GetSessionWithAccountIDAndPartition := fun _ => Except.error "creds expired"
    ValidateAccountID := fun _ _ _ => none
    PartitionForRegion := fun _ => none
    IsDebugOrHigher := false }

/-- An environment in which region validation rejects every region. -/
def baseRegionErr : AwsBase :=
  { ValidateRegion := fun _ => some "invalid region xx-bad-1"
    GetSessionWithAccountIDAndPartition :=
      fun _ => Except.ok ({ handle := 0 }, "123456789012", "aws")
    ValidateAccountID := fun _ _ _ => none
    PartitionForRegion := fun _ => none
    IsDebugOrHigher := false }

/-- An EC2 connection whose supported-platforms attribute has no values. -/
def connNoPlatforms : EC2 :=
  { DescribeAccountAttributes := fun _ =>
      Except.ok [{ AttributeName := "supported-platforms",
                   AttributeValues := [] }] }

/-- Modelled from the spec: the provider definition and the data-source read
implementation are not among the source files (only config.go and tags.go are).
The spec and README describe a single read-only data source, awssso_role, whose
read operation performs one IAM API call and returns one attribute, the ARN of
the IAM role created in the target account by the AWS SSO instance for the
organization.  A data source is modelled by its name, whether it is read-only,
how many IAM API calls its read makes, and the attribute names it returns. -/
structure DataSource where
  name : String
  readOnly : Bool
  readIAMCalls : Nat
  readAttributes : List String
deriving DecidableEq

/-- Modelled from the spec: the awssso_role data source, which fetches the ARN
of the IAM role created in the target account by the AWS SSO instance. -/
def awsssoRole : DataSource :=
  { name := "awssso_role"
    readOnly := true
    readIAMCalls := 1
    readAttributes := ["arn"] }

/-- Modelled from the spec: the data sources the provider exposes. -/
def providerDataSources : List DataSource := [awsssoRole]

/-! Theorems for the claims. -/

/-- The part of Client after region validation never yields a client together
with an error: each branch returns either a full client and no error or no
client and an error. -/
theorem clientAfterRegionValidation_shape (c : Config) (base : AwsBase) :
    (∃ cl, c.clientAfterRegionValidation base = (some cl, none)) ∨
    (∃ e, c.clientAfterRegionValidation base = (none, some e)) := by
  unfold Config.clientAfterRegionValidation
  split
  · exact Or.inr ⟨_, rfl⟩
  · split
    · exact Or.inr ⟨_, rfl⟩
    · exact Or.inl ⟨_, rfl⟩

/-- A successful Client run is a successful run of the part after region
validation. -/
theorem client_some_to_rest (c : Config) (base : AwsBase) (cl : AWSClient)
    (h : (c.Client base).1 = some cl) :
    (c.clientAfterRegionValidation base).1 = some cl := by
  unfold Config.Client at h
  split at h
  · exact h
  · split at h
    · simp at h
    · exact h

/-- C1: for every Config, the awsbase.Config built by Config.Client passes the
configuration fields through unchanged: AccessKey, SecretKey, Token, Profile,
CredsFilename, Region, MaxRetries and all eight AssumeRole fields equal the
corresponding Config fields, IamEndpoint is the "iam" endpoint entry and
StsEndpoint the "sts" endpoint entry. -/
theorem awsbaseConfig_passthrough (c : Config) (base : AwsBase) :
    (c.awsbaseConfig base.IsDebugOrHigher).AccessKey = c.AccessKey ∧
    (c.awsbaseConfig base.IsDebugOrHigher).SecretKey = c.SecretKey ∧
    (c.awsbaseConfig base.IsDebugOrHigher).Token = c.Token ∧
    (c.awsbaseConfig base.IsDebugOrHigher).Profile = c.Profile ∧
    (c.awsbaseConfig base.IsDebugOrHigher).CredsFilename = c.CredsFilename ∧
    (c.awsbaseConfig base.IsDebugOrHigher).Region = c.Region ∧
    (c.awsbaseConfig base.IsDebugOrHigher).MaxRetries = c.MaxRetries ∧
    (c.awsbaseConfig base.IsDebugOrHigher).AssumeRoleARN = c.AssumeRoleARN ∧
    (c.awsbaseConfig base.IsDebugOrHigher).AssumeRoleDurationSeconds =
      c.AssumeRoleDurationSeconds ∧
    (c.awsbaseConfig base.IsDebugOrHigher).AssumeRoleExternalID =
      c.AssumeRoleExternalID ∧
    (c.awsbaseConfig base.IsDebugOrHigher).AssumeRolePolicy = c.AssumeRolePolicy ∧
    (c.awsbaseConfig base.IsDebugOrHigher).AssumeRolePolicyARNs =
      c.AssumeRolePolicyARNs ∧
    (c.awsbaseConfig base.IsDebugOrHigher).AssumeRoleSessionName =
      c.AssumeRoleSessionName ∧
    (c.awsbaseConfig base.IsDebugOrHigher).AssumeRoleTags = c.AssumeRoleTags ∧
    (c.awsbaseConfig base.IsDebugOrHigher).AssumeRoleTransitiveTagKeys =
      c.AssumeRoleTransitiveTagKeys ∧
    (c.awsbaseConfig base.IsDebugOrHigher).IamEndpoint = c.Endpoints "iam" ∧
    (c.awsbaseConfig base.IsDebugOrHigher).StsEndpoint = c.Endpoints "sts" :=
  ⟨rfl, rfl, rfl, rfl, rfl, rfl, rfl, rfl, rfl, rfl, rfl, rfl, rfl, rfl, rfl,
   rfl, rfl⟩

/-- C6: tagsSchemaComputed takes no input and returns a schema that is a map of
strings marked both Optional and Computed: its Type is TypeMap, its Elem is a
schema of TypeString, and Optional and Computed are both true. -/
theorem tagsSchemaComputed_spec :
    tagsSchemaComputed.vtype = ValueType.TypeMap ∧
    tagsSchemaComputed.Optional = true ∧
    tagsSchemaComputed.Computed = true ∧
    ∃ elemSchema, tagsSchemaComputed.Elem = some elemSchema ∧
      elemSchema.vtype = ValueType.TypeString :=
  ⟨rfl, rfl, rfl, _, rfl, rfl⟩

/-- C7: for every client and every prefix string, RegionalHostname equals
PartitionHostname applied to the prefix with the region appended after a dot:
both helpers append the same partition DNS suffix and RegionalHostname
additionally inserts the region between prefix and suffix. -/
theorem regionalHostname_eq_partitionHostname (client : AWSClient) (p : String) :
    client.RegionalHostname p =
      client.PartitionHostname (p ++ "." ++ client.region) := rfl

/-- A successful run of the part after region validation pins every field of
the returned client to the configuration and the base-library session result. -/
theorem clientAfterRegionValidation_some (c : Config) (base : AwsBase)
    (cl : AWSClient) (h : (c.clientAfterRegionValidation base).1 = some cl) :
    ∃ sess acct part,
      base.GetSessionWithAccountIDAndPartition
          (c.awsbaseConfig base.IsDebugOrHigher) =
        Except.ok (sess, acct, part) ∧
      cl = { accountid := acct
             DefaultTagsConfig := c.DefaultTagsConfig
             dnsSuffix :=
               match base.PartitionForRegion c.Region with
               | some p => p.dnsSuffix
               | none => "amazonaws.com"
             iamconn := iamNew (sess.copy (c.Endpoints "iam"))
             IgnoreTagsConfig := c.IgnoreTagsConfig
             partition := part
             region := c.Region
             terraformVersion := c.terraformVersion } := by
  unfold Config.clientAfterRegionValidation at h
  rcases hs : base.GetSessionWithAccountIDAndPartition
      (c.awsbaseConfig base.IsDebugOrHigher) with e0 | ⟨sess, acct, part⟩ <;>
    rw [hs] at h <;> dsimp only at h
  · simp at h
  · rcases hv : base.ValidateAccountID acct c.AllowedAccountIds
        c.ForbiddenAccountIds with _ | e <;> rw [hv] at h <;> dsimp only at h
    · exact ⟨sess, acct, part, rfl, (Option.some.inj h).symm⟩
    · simp at h

/-- C8: for every Config and every behaviour of the base library, Config.Client
returns either a client with a nil error or a nil client with an error; none of
its failure points returns a partially initialized client. -/
theorem client_all_or_nothing (c : Config) (base : AwsBase) :
    (∃ cl, c.Client base = (some cl, none)) ∨
    (∃ e, c.Client base = (none, some e)) := by
  unfold Config.Client
  split
  · exact clientAfterRegionValidation_shape c base
  · split
    · exact Or.inr ⟨_, rfl⟩
    · exact clientAfterRegionValidation_shape c base

/-- C9: Config.Client returns the region-validation error unchanged exactly when
SkipRegionValidation is false and ValidateRegion rejects the region; when
validation passes it proceeds to session creation, and when SkipRegionValidation
is true the ValidateRegion component is never consulted: the result is the same
for every ValidateRegion behaviour. -/
theorem client_region_validation (c : Config) (base : AwsBase) :
    (c.SkipRegionValidation = false → ∀ e,
      base.ValidateRegion c.Region = some e → c.Client base = (none, some e)) ∧
    (c.SkipRegionValidation = false → base.ValidateRegion c.Region = none →
      c.Client base = c.clientAfterRegionValidation base) ∧
    (c.SkipRegionValidation = true → ∀ v,
      Config.Client c { base with ValidateRegion := v } =
        c.clientAfterRegionValidation base) := by
  refine ⟨?_, ?_, ?_⟩
  · intro hskip e he
    simp [Config.Client, hskip, he]
  · intro hskip he
    simp [Config.Client, hskip, he]
  · intro hskip v
    simp only [Config.Client, hskip, if_true]
    rfl

/-- Witness for C9: with region validation enabled and a rejecting validator,
Client returns exactly the validator error. -/
theorem client_region_validation_witness :
    cfgBase.Client baseRegionErr = (none, some "invalid region xx-bad-1") :=
  (client_region_validation cfgBase baseRegionErr).1 rfl
    "invalid region xx-bad-1" rfl

/-- C4: whenever Config.Client succeeds, the returned AWSClient is built from
the configuration and the base-library result: region equals Config.Region,
terraformVersion equals Config.terraformVersion, accountid and partition equal
the base-library values, and dnsSuffix is the DNS suffix of the default
partition containing the region, defaulting to "amazonaws.com" when no default
partition contains it. -/
theorem client_success_fields (c : Config) (base : AwsBase) (cl : AWSClient)
    (h : (c.Client base).1 = some cl) :
    cl.region = c.Region ∧
    cl.terraformVersion = c.terraformVersion ∧
    (∃ sess acct part,
      base.GetSessionWithAccountIDAndPartition
          (c.awsbaseConfig base.IsDebugOrHigher) =
        Except.ok (sess, acct, part) ∧
      cl.accountid = acct ∧ cl.partition = part) ∧
    cl.dnsSuffix =
      (match base.PartitionForRegion c.Region with
       | some p => p.dnsSuffix
       | none => "amazonaws.com") := by
  obtain ⟨sess, acct, part, hs, hcl⟩ :=
    clientAfterRegionValidation_some c base cl (client_some_to_rest c base cl h)
  subst hcl
  exact ⟨rfl, rfl, ⟨sess, acct, part, hs, rfl, rfl⟩, rfl⟩

/-- Witness for C4: a concrete successful run returning clientOk. -/
theorem client_success_fields_witness :
    (cfgBase.Client baseOk).1 = some clientOk ∧
    clientOk.region = cfgBase.Region ∧
    clientOk.terraformVersion = cfgBase.terraformVersion :=
  ⟨rfl, (client_success_fields cfgBase baseOk clientOk rfl).1,
   (client_success_fields cfgBase baseOk clientOk rfl).2.1⟩

/-- C5: Config.Client delegates session setup to the base library: whenever it
succeeds, the accountid and partition of the returned client are exactly the
values GetSessionWithAccountIDAndPartition produced, and its IAM connection is
iam.New on a copy of that session carrying the configured "iam" endpoint. -/
theorem client_delegates_to_awsbase (c : Config) (base : AwsBase)
    (cl : AWSClient) (h : (c.Client base).1 = some cl) :
    ∃ sess acct part,
      base.GetSessionWithAccountIDAndPartition
          (c.awsbaseConfig base.IsDebugOrHigher) =
        Except.ok (sess, acct, part) ∧
      cl.accountid = acct ∧ cl.partition = part ∧
      cl.iamconn = iamNew (sess.copy (c.Endpoints "iam")) := by
  obtain ⟨sess, acct, part, hs, hcl⟩ :=
    clientAfterRegionValidation_some c base cl (client_some_to_rest c base cl h)
  subst hcl
  exact ⟨sess, acct, part, hs, rfl, rfl, rfl⟩

/-- Witness for C5: the concrete successful run again, with the session values
spelled out. -/
theorem client_delegates_to_awsbase_witness :
    (cfgBase.Client baseOk).1 = some clientOk ∧
    ∃ sess acct part,
      baseOk.GetSessionWithAccountIDAndPartition
          (cfgBase.awsbaseConfig baseOk.IsDebugOrHigher) =
        Except.ok (sess, acct, part) ∧
      clientOk.accountid = acct ∧ clientOk.partition = part ∧
      clientOk.iamconn = iamNew (sess.copy (cfgBase.Endpoints "iam")) :=
  ⟨rfl, client_delegates_to_awsbase cfgBase baseOk clientOk rfl⟩

/-- An error from the part of Client after region validation is either the
session-creation error wrapped in new text, or the account-ID validation error
unchanged. -/
theorem clientAfterRegionValidation_error (c : Config) (base : AwsBase)
    (e : Err) (h : (c.clientAfterRegionValidation base).2 = some e) :
    (∃ e0, base.GetSessionWithAccountIDAndPartition
        (c.awsbaseConfig base.IsDebugOrHigher) = Except.error e0 ∧
      e = "error configuring Terraform AWS Provider: " ++ e0) ∨
    (∃ acct, base.ValidateAccountID acct c.AllowedAccountIds
        c.ForbiddenAccountIds = some e) := by
  unfold Config.clientAfterRegionValidation at h
  rcases hs : base.GetSessionWithAccountIDAndPartition
      (c.awsbaseConfig base.IsDebugOrHigher) with e0 | ⟨sess, acct, part⟩ <;>
    rw [hs] at h <;> dsimp only at h
  · exact Or.inl ⟨e0, rfl, (Option.some.inj h).symm⟩
  · rcases hv : base.ValidateAccountID acct c.AllowedAccountIds
        c.ForbiddenAccountIds with _ | e1 <;> rw [hv] at h <;> dsimp only at h
    · simp at h
    · exact Or.inr ⟨acct, hv.trans (congrArg some (Option.some.inj h))⟩

/-- C2 as stated fails on the code: Config.Client wraps the session-creation
error in new text rather than passing it through, and GetSupportedEC2Platforms
constructs an error of its own although its only SDK call succeeded. -/
theorem client_error_not_passthrough :
    baseSessErr.GetSessionWithAccountIDAndPartition
        (cfgBase.awsbaseConfig baseSessErr.IsDebugOrHigher) =
      Except.error "creds expired" ∧
    (cfgBase.Client baseSessErr).2 =
      some "error configuring Terraform AWS Provider: creds expired" ∧
    "error configuring Terraform AWS Provider: creds expired" ≠ "creds expired" ∧
    connNoPlatforms.DescribeAccountAttributes
        { AttributeNames := ["supported-platforms"] } =
      Except.ok [{ AttributeName := "supported-platforms",
                   AttributeValues := [] }] ∧
    GetSupportedEC2Platforms connNoPlatforms =
      Except.error "no EC2 platforms detected" :=
  ⟨rfl, rfl, by decide, rfl, rfl⟩

/-- C2 (amended): every error Config.Client returns is an underlying
base-library error, passed through unchanged for region validation and
account-ID validation but wrapped in the text "error configuring Terraform AWS
Provider: " for session creation; and every error GetSupportedEC2Platforms
returns is the SDK error passed through unchanged or the error it constructs
itself, "no EC2 platforms detected", when no platforms are found. -/
theorem error_provenance (c : Config) (base : AwsBase) (conn : EC2) :
    (∀ e, (c.Client base).2 = some e →
      (c.SkipRegionValidation = false ∧
        base.ValidateRegion c.Region = some e) ∨
      (∃ e0, base.GetSessionWithAccountIDAndPartition
          (c.awsbaseConfig base.IsDebugOrHigher) = Except.error e0 ∧
        e = "error configuring Terraform AWS Provider: " ++ e0) ∨
      (∃ acct, base.ValidateAccountID acct c.AllowedAccountIds
          c.ForbiddenAccountIds = some e)) ∧
    (∀ e, GetSupportedEC2Platforms conn = Except.error e →
      conn.DescribeAccountAttributes
          { AttributeNames := ["supported-platforms"] } = Except.error e ∨
      e = "no EC2 platforms detected") := by
  constructor
  · intro e he
    unfold Config.Client at he
    split at he
    · exact Or.inr (clientAfterRegionValidation_error c base e he)
    · next hskip =>
      rcases hr : base.ValidateRegion c.Region with _ | e1 <;> rw [hr] at he <;>
        dsimp only at he
      · exact Or.inr (clientAfterRegionValidation_error c base e he)
      · refine Or.inl ⟨by simpa using hskip, ?_⟩
        exact congrArg some (Option.some.inj he)
  · intro e he
    unfold GetSupportedEC2Platforms at he
    dsimp only at he
    rcases hd : conn.DescribeAccountAttributes
        { AttributeNames := ["supported-platforms"] } with e0 | attrs <;>
      rw [hd] at he <;> dsimp only at he
    · exact Or.inl (congrArg Except.error (Except.error.inj he))
    · split at he
      · exact Or.inr (Except.error.inj he).symm
      · simp at he

/-- Witness for C2 (amended): at the concrete failing session the provenance is
the wrapped session error. -/
theorem error_provenance_witness :
    (cfgBase.SkipRegionValidation = false ∧
      baseSessErr.ValidateRegion cfgBase.Region =
        some "error configuring Terraform AWS Provider: creds expired") ∨
    (∃ e0, baseSessErr.GetSessionWithAccountIDAndPartition
        (cfgBase.awsbaseConfig baseSessErr.IsDebugOrHigher) = Except.error e0 ∧
      "error configuring Terraform AWS Provider: creds expired" =
        "error configuring Terraform AWS Provider: " ++ e0) ∨
    (∃ acct, baseSessErr.ValidateAccountID acct cfgBase.AllowedAccountIds
        cfgBase.ForbiddenAccountIds =
      some "error configuring Terraform AWS Provider: creds expired") :=
  (error_provenance cfgBase baseSessErr connNoPlatforms).1
    "error configuring Terraform AWS Provider: creds expired" rfl

/-- C3 (modelled from the spec): the provider exposes exactly one data source;
it is read-only, its read operation performs one IAM API call, and it returns
the single attribute arn, the ARN of the IAM role created in the target account
by the AWS SSO instance for the organization. -/
theorem provider_single_data_source :
    providerDataSources = [awsssoRole] ∧
    awsssoRole.readOnly = true ∧
    awsssoRole.readIAMCalls = 1 ∧
    awsssoRole.readAttributes = ["arn"] :=
  ⟨rfl, rfl, rfl, rfl⟩

end AwsSSO
